import Mathlib

/-!
Verification of the hand-cursor tracking and calibration pipeline of
`jason/js/synth.js` and the gesture hysteresis of `jason/js/gesture.js`.

JavaScript numbers are modelled as exact rationals (`ℚ`); JS `null` becomes
`Option.none`; the module-level mutable state becomes explicit state records
threaded through the step functions.  Each definition is a direct translation
of the correspondingly named source function.
-/

set_option maxRecDepth 200000

namespace HandPipeline

/-- The IEEE-754 double closest to π, the exact value of JS `Math.PI`. -/
def mathPi : ℚ := 884279719003555 / 281474976710656

/-- `clamp01` helper used throughout `synth.js`: `Math.max(0, Math.min(1, v))`. -/
def clamp01 (v : ℚ) : ℚ := max 0 (min 1 v)

/-- A 2-D point `{x, y}` in video-normalised space. -/
structure Pt where
  x : ℚ
  y : ℚ
deriving DecidableEq, Repr

/-! ### Gaussian elimination (`_gaussElim` in synth.js)

The JS code works on an `n×(n+1)` augmented matrix of floats; we model it as a
`List (List ℚ)` with out-of-range reads defaulting to 0 (never exercised on the
well-formed inputs built by `_computeHomography`). -/

/-- Matrix entry read `M[i][j]` with 0 as default. -/
def mget (M : List (List ℚ)) (i j : Nat) : ℚ := (M.getD i []).getD j 0

/-- Swap rows `i` and `j` (the destructuring swap `[M[col],M[maxRow]] = ...`). -/
def swapRows (M : List (List ℚ)) (i j : Nat) : List (List ℚ) :=
  let ri := M.getD i []
  let rj := M.getD j []
  (M.set i rj).set j ri

/-- Partial-pivot search: the row index in `[col, n)` whose entry in column
`col` has maximal absolute value (first such row on ties, as in the JS
strict-`>` comparison). -/
def pivotSearch (M : List (List ℚ)) (col n : Nat) : Nat :=
  (List.range' (col + 1) (n - (col + 1))).foldl
    (fun maxRow row => if |mget M row col| > |mget M maxRow col| then row else maxRow)
    col

/-- The JS pivot threshold `1e-12`. -/
def pivotEps : ℚ := 1 / 1000000000000

/-- One column of forward elimination: pivot, swap, degeneracy check, then
eliminate the entries below the pivot (columns `col..n` updated, as in the JS
inner loop `for k = col..n`). -/
def elimCol (M : List (List ℚ)) (col n : Nat) : Option (List (List ℚ)) :=
  let maxRow := pivotSearch M col n
  let M1 := swapRows M col maxRow
  if |mget M1 col col| < pivotEps then none
  else
    some ((List.range' (col + 1) (n - (col + 1))).foldl
      (fun Macc row =>
        let f := mget Macc row col / mget Macc col col
        Macc.set row ((List.range' 0 (n + 1)).map
          (fun k => if k < col then mget Macc row k
                    else mget Macc row k - f * mget Macc col k)))
      M1)

/-- Forward elimination over the given list of columns; `none` as soon as a
column has a sub-threshold pivot. -/
def forwardElimCols (n : Nat) : List Nat → List (List ℚ) → Option (List (List ℚ))
  | [], M => some M
  | col :: rest, M =>
    (elimCol M col n).bind (fun M2 => forwardElimCols n rest M2)

/-- Forward elimination over all `n` columns (the JS `for col = 0..n-1` loop);
`none` on a sub-threshold pivot. -/
def forwardElim (M : List (List ℚ)) (n : Nat) : Option (List (List ℚ)) :=
  forwardElimCols n (List.range' 0 n) M

/-- Back substitution, computing `[x_(n-k), …, x_(n-1)]`. -/
def backSubAux (M : List (List ℚ)) (n : Nat) : Nat → List ℚ
  | 0 => []
  | k + 1 =>
    let tail := backSubAux M n k
    let i := n - (k + 1)
    let s := ((List.range' (i + 1) (n - (i + 1))).zip tail).foldl
      (fun acc jx => acc + mget M i jx.1 * jx.2) 0
    ((mget M i n - s) / mget M i i) :: tail

/-- Back substitution for the full solution vector. -/
def backSub (M : List (List ℚ)) (n : Nat) : List ℚ := backSubAux M n n

/-- The augmented matrix `M = A.map((row,i) => [...row, b[i]])`. -/
def augment (A : List (List ℚ)) (b : List ℚ) : List (List ℚ) :=
  (A.zip b).map (fun rb => rb.1 ++ [rb.2])

/-- `_gaussElim(A, b)`: solve `A·x = b` by Gaussian elimination with partial
pivoting; `null` (here `none`) when a pivot has absolute value `< 1e-12`. -/
def _gaussElim (A : List (List ℚ)) (b : List ℚ) : Option (List ℚ) :=
  let n := b.length
  match forwardElim (augment A b) n with
  | none => none
  | some M2 => some (backSub M2 n)

/-! ### Homography (`_computeHomography`, `applyHomography`) -/

/-- `CORNER_TARGETS`: where each clicked corner maps in canvas space. -/
def CORNER_TARGETS : List (ℚ × ℚ) := [(0, 0), (1, 0), (1, 1), (0, 1)]

/-- The 8×9 DLT matrix `A` of `_computeHomography` (two rows per point). -/
def buildDLT (quad : List Pt) : List (List ℚ) :=
  ((List.range' 0 4).map (fun i =>
    let p := quad.getD i ⟨0, 0⟩
    let d := CORNER_TARGETS.getD i (0, 0)
    let sx := p.x
    let sy := p.y
    let dx := d.1
    let dy := d.2
    [[-sx, -sy, -1, 0, 0, 0, dx * sx, dx * sy, dx],
     [0, 0, 0, -sx, -sy, -1, dy * sx, dy * sy, dy]])).flatten

/-- `_computeHomography(quad)`: fix `h[8] = 1`, solve the 8×8 system
`A[:,0..7]·x = -A[:,8]`; `null` when the solve is degenerate. -/
def _computeHomography (quad : List Pt) : Option (List ℚ) :=
  let A := buildDLT quad
  let M := A.map (fun row => row.take 8)
  let b := A.map (fun row => -(row.getD 8 0))
  match _gaussElim M b with
  | none => none
  | some h8 => some (h8 ++ [1])

/-- The homogeneous transform of `applyHomography` before mirroring and
clamping: `w = h6·vx + h7·vy + h8`, `nx_raw = (h0·vx+h1·vy+h2)/w`,
`ny_raw = (h3·vx+h4·vy+h5)/w`. -/
def homographyRaw (h : List ℚ) (vx vy : ℚ) : ℚ × ℚ :=
  let g := fun i => h.getD i 0
  let w := g 6 * vx + g 7 * vy + g 8
  ((g 0 * vx + g 1 * vy + g 2) / w, (g 3 * vx + g 4 * vy + g 5) / w)

/-- Result record of `applyHomography`. -/
structure MappedPt where
  inside : Bool
  nx : ℚ
  ny : ℚ
deriving DecidableEq, Repr

/-- The inside margin `0.04` of `applyHomography`. -/
def insideMargin : ℚ := 4 / 100

/-- `applyHomography(vx, vy)`: homogeneous map, inside test with margin 0.04 on
the raw coordinates, then mirror X (`1 - nx_raw`) and clamp both to `[0,1]`. -/
def applyHomography (hm : Option (List ℚ)) (vx vy : ℚ) : MappedPt :=
  match hm with
  | none => ⟨false, 0, 0⟩
  | some h =>
    let r := homographyRaw h vx vy
    let nxRaw := r.1
    let nyRaw := r.2
    let inside := decide (-insideMargin ≤ nxRaw) && decide (nxRaw ≤ 1 + insideMargin)
      && decide (-insideMargin ≤ nyRaw) && decide (nyRaw ≤ 1 + insideMargin)
    ⟨inside, clamp01 (1 - nxRaw), clamp01 nyRaw⟩

/-! ### Calibration state machine

The module-level mutable variables `calibPoints`, `calibQuad`, `homographyMat`,
`calibMode` of synth.js, and the functions mutating them.  The localStorage
persistence and the `onCalibChange` UI notification are side effects outside
the state modelled here. -/

structure CalibState where
  calibPoints : List Pt
  calibQuad : Option (List Pt)
  homographyMat : Option (List ℚ)
  calibMode : Bool
deriving DecidableEq, Repr

/-- The initial module state: no points, no quad, no matrix, not collecting. -/
def initCalibState : CalibState := ⟨[], none, none, false⟩

/-- `_confirmCalibration()`: freeze the collected points as `calibQuad`, leave
collecting mode, clear the point list, and set `homographyMat` to whatever
`_computeHomography` returns (`none` on a degenerate solve). -/
def _confirmCalibration (s : CalibState) : CalibState :=
  let quad := s.calibPoints
  { calibPoints := [], calibQuad := some quad, calibMode := false,
    homographyMat := _computeHomography quad }

/-- `isCalibrated()`: `calibQuad !== null`. -/
def isCalibrated (s : CalibState) : Bool := s.calibQuad.isSome

/-- `startCalibration()`. -/
def startCalibration (s : CalibState) : CalibState :=
  { s with calibPoints := [], calibMode := true }

/-- `clearCalibration()` (minus the localStorage removal). -/
def clearCalibration (_s : CalibState) : CalibState :=
  ⟨[], none, none, false⟩

/-- `_onPreviewClick`: ignore clicks outside collecting mode; un-mirror the
click X (`vx = 1 - px`), append the point, and auto-confirm on the 4th. -/
def _onPreviewClick (s : CalibState) (px py : ℚ) : CalibState :=
  if !s.calibMode then s
  else
    let s1 := { s with calibPoints := s.calibPoints ++ [⟨1 - px, py⟩] }
    if s1.calibPoints.length = 4 then _confirmCalibration s1 else s1

/-! ### One-Euro filter (`makeOneEuroFilter`) -/

structure OneEuroParams where
  minCutoff : ℚ
  beta : ℚ
  dCutoff : ℚ
deriving Repr

/-- The closure state `{xPrev, dxPrev, tPrev}` of one filter instance. -/
structure OneEuroState where
  xPrev : Option ℚ
  dxPrev : ℚ
  tPrev : Option ℚ
deriving DecidableEq, Repr

/-- `reset()`: `xPrev = null; dxPrev = 0; tPrev = null` — also the state of a
freshly constructed filter. -/
def oneEuroReset : OneEuroState := ⟨none, 0, none⟩

/-- `alpha(cutoff, dt)` helper: `tau = 1/(2π·cutoff)`, `1/(1 + tau/dt)`. -/
def alphaEuro (cutoff dt : ℚ) : ℚ :=
  let tau := 1 / (2 * mathPi * cutoff)
  1 / (1 + tau / dt)

/-- `filter(x, t)`: first call stores and returns `x`; otherwise low-pass the
raw derivative with `dCutoff`, derive the adaptive cutoff
`minCutoff + beta·|dx|`, and low-pass `x` with it.  Returns the new closure
state and the filtered value.  (`tPrev` is non-null whenever `xPrev` is; the
`getD 0` default is never exercised.) -/
def oneEuroFilter (p : OneEuroParams) (s : OneEuroState) (x t : ℚ) : OneEuroState × ℚ :=
  match s.xPrev with
  | none => ({ s with xPrev := some x, tPrev := some t }, x)
  | some xp =>
    let dt := max (t - s.tPrev.getD 0) (1 / 1000000)
    let dxRaw := (x - xp) / dt
    let aD := alphaEuro p.dCutoff dt
    let dx := aD * dxRaw + (1 - aD) * s.dxPrev
    let cutoff := p.minCutoff + p.beta * |dx|
    let aX := alphaEuro cutoff dt
    let xFilt := aX * x + (1 - aX) * xp
    (⟨some xFilt, dx, some t⟩, xFilt)

/-- The instantiation used for `filterX`/`filterY`:
`makeOneEuroFilter({ minCutoff: 6.0, beta: 0.2 })` with default `dCutoff`. -/
def cursorFilterParams : OneEuroParams := ⟨6, 1/5, 1⟩

/-- Feed the filter a sequence of `(value, timestamp)` pairs from a given
state, collecting the outputs in order. -/
def runFilter (p : OneEuroParams) : OneEuroState → List (ℚ × ℚ) → List ℚ
  | _, [] => []
  | s, xt :: rest =>
    let r := oneEuroFilter p s xt.1 xt.2
    r.2 :: runFilter p r.1 rest

/-! ### Velocity predictor -/

def PREDICT_MS : ℚ := 65
def VEL_ALPHA : ℚ := 1/2
def MAX_VEL : ℚ := 8

/-- The module-level predictor variables of synth.js. -/
structure PredState where
  predVelX : ℚ
  predVelY : ℚ
  predBaseX : ℚ
  predBaseY : ℚ
  predBaseT : ℚ
  predActive : Bool
deriving DecidableEq, Repr

/-- Initial values: velocities 0, base `(0.5, 0.5)`, `predBaseT = 0`,
inactive. -/
def initPredState : PredState := ⟨0, 0, 1/2, 1/2, 0, false⟩

/-- `updatePrediction(fx, fy, t)`: when a base timestamp exists and more than
5 ms have elapsed, clamp the raw velocity to `[-MAX_VEL, MAX_VEL]` per axis and
blend it into the smoothed velocity by EMA; then unconditionally store the new
base and mark the predictor active. -/
def updatePrediction (s : PredState) (fx fy t : ℚ) : PredState :=
  let s1 :=
    if s.predBaseT > 0 then
      let dt := (t - s.predBaseT) / 1000
      if dt > 5/1000 then
        let rawVx := (fx - s.predBaseX) / dt
        let rawVy := (fy - s.predBaseY) / dt
        let cvx := max (-MAX_VEL) (min MAX_VEL rawVx)
        let cvy := max (-MAX_VEL) (min MAX_VEL rawVy)
        { s with predVelX := s.predVelX * (1 - VEL_ALPHA) + cvx * VEL_ALPHA,
                 predVelY := s.predVelY * (1 - VEL_ALPHA) + cvy * VEL_ALPHA }
      else s
    else s
  { s1 with predBaseX := fx, predBaseY := fy, predBaseT := t, predActive := true }

/-- `getPredictedPosition()`: extrapolate `PREDICT_MS` ahead of the elapsed
time (capped at 150 ms), clamped to `[0,1]`; identity on the base position when
never activated.  `performance.now()` is the explicit `now` argument. -/
def getPredictedPosition (s : PredState) (now : ℚ) : ℚ × ℚ :=
  if !s.predActive then (s.predBaseX, s.predBaseY)
  else
    let dt := min ((now - s.predBaseT) / 1000) (15/100)
    let ahead := PREDICT_MS / 1000
    (clamp01 (s.predBaseX + s.predVelX * (dt + ahead)),
     clamp01 (s.predBaseY + s.predVelY * (dt + ahead)))

/-- `resetPrediction()`: zero the velocities, deactivate, zero the base
timestamp (base position is left as is). -/
def resetPrediction (s : PredState) : PredState :=
  { s with predVelX := 0, predVelY := 0, predActive := false, predBaseT := 0 }

/-- One call into the predictor API.  `getPredictedPosition` is a pure read;
it is included as a state-preserving operation. -/
inductive PredOp where
  | update (fx fy t : ℚ)
  | predictTick (now : ℚ)
  | reset
deriving Repr

def applyPredOp (s : PredState) : PredOp → PredState
  | .update fx fy t => updatePrediction s fx fy t
  | .predictTick _ => s
  | .reset => resetPrediction s

/-- The predictor state after an arbitrary finite call sequence, starting from
the initial module state. -/
def runPredOps (ops : List PredOp) : PredState := ops.foldl applyPredOp initPredState

/-! ### Detection callback (`onHandResults`) and cursor state

The combined module state touched by the detection callback.  `cursorEl`
records whether the cursor overlay DOM element exists (it does once
`setupCursorOverlay` has run).  `movementEMA` — a display-only brush-volume
quantity computed from `Math.sqrt` of the raw delta — is the one variable of
`updateCursor` not carried here; no claim concerns it and it feeds nothing
else in the pipeline. -/

structure HandState where
  calib : CalibState
  filterX : OneEuroState
  filterY : OneEuroState
  pred : PredState
  lastLandmarks : Option (List Pt)
  cursorEl : Bool
  cursorNorm : ℚ × ℚ
  cursorActive : Bool
  prevRaw : ℚ × ℚ
deriving DecidableEq, Repr

/-- `updateCursor(visible, nx, ny, rawX, rawY)`: no-op without the overlay
element; otherwise set `cursorActive = visible` and, when visible, record the
raw point (`rawX ?? nx`) and the normalised cursor position. -/
def updateCursor (st : HandState) (visible : Bool) (nx ny : ℚ)
    (rawX rawY : Option ℚ) : HandState :=
  if !st.cursorEl then st
  else
    let st1 := { st with cursorActive := visible }
    if visible then
      { st1 with prevRaw := (rawX.getD nx, rawY.getD ny), cursorNorm := (nx, ny) }
    else st1

/-- `onHandResults(results)` with `performance.now()` as the explicit `now`
argument (milliseconds; the filters receive `now / 1000`).  `results` is
`none` when `results.multiHandLandmarks` is empty (tracking loss): both
filters are reset, the predictor is reset, and `updateCursor(false, 0, 0)`
runs.  Otherwise landmark 8 is mapped (homography when a quad and matrix
exist, mirrored identity fallback otherwise), filtered per axis, fed to the
predictor, and the cursor updated with the inside flag. -/
def onHandResults (st : HandState) (results : Option (List Pt)) (now : ℚ) : HandState :=
  match results with
  | none =>
    let st1 := { st with lastLandmarks := none,
                         filterX := oneEuroReset, filterY := oneEuroReset,
                         pred := resetPrediction st.pred }
    updateCursor st1 false 0 0 none none
  | some lm =>
    let st1 := { st with lastLandmarks := some lm }
    let tip := lm.getD 8 ⟨0, 0⟩
    let t := now / 1000
    let m : MappedPt :=
      if st1.calib.calibQuad.isNone || st1.calib.homographyMat.isNone
      then ⟨true, 1 - tip.x, tip.y⟩
      else applyHomography st1.calib.homographyMat tip.x tip.y
    let fx := oneEuroFilter cursorFilterParams st1.filterX m.nx t
    let fy := oneEuroFilter cursorFilterParams st1.filterY m.ny t
    let st2 := { st1 with filterX := fx.1, filterY := fy.1,
                          pred := updatePrediction st1.pred fx.2 fy.2 now }
    updateCursor st2 m.inside fx.2 fy.2 (some m.nx) (some m.ny)

/-! ### Gesture hysteresis (`gesture.js`; the same machine appears verbatim in
`melody-canvas/js/classifier.js`)

The per-frame landmark classification (`fingerExtension` ratios over
`Math.sqrt` distances, respectively template cosine similarity) is abstracted
as the `matched` label the source computes before entering the hysteresis
block: a frame either has no hand (`noHand`, the JS `!landmarks` early
return) or a hand whose classification stage produced `matched`
(a label, or `none` for no confident match). -/

def CONFIRM_FRAMES : Nat := 4
def RELEASE_FRAMES : Nat := 18

structure GestureState where
  currentGesture : Option String
  candidateGesture : Option String
  candidateCount : Nat
  releaseCount : Nat
deriving DecidableEq, Repr

/-- `clearGesture()` — also the initial module state. -/
def clearGesture : GestureState := ⟨none, none, 0, 0⟩

/-- `_setGesture(name)`: net effect is `currentGesture = name` (the guard only
avoids a redundant log). -/
def _setGesture (name : Option String) (s : GestureState) : GestureState :=
  { s with currentGesture := name }

/-- `getCurrentGesture()`. -/
def getCurrentGesture (s : GestureState) : Option String := s.currentGesture

/-- One frame fed to `updateGesture`. -/
inductive GestureInput where
  | noHand
  | hand (matched : Option String)

/-- `updateGesture(landmarks)`: the `!landmarks` early return forces the
confirmed gesture to none; otherwise the confirm/release hysteresis block of
the source, verbatim, on the frame's `matched` label. -/
def updateGesture (inp : GestureInput) (s : GestureState) : GestureState :=
  match inp with
  | .noHand => _setGesture none s
  | .hand matched =>
    match s.currentGesture with
    | some cur =>
      if matched = some cur then
        { s with releaseCount := 0, candidateGesture := matched,
                 candidateCount := CONFIRM_FRAMES }
      else
        let s1 := { s with releaseCount := s.releaseCount + 1 }
        let s2 :=
          if matched = s1.candidateGesture then
            { s1 with candidateCount := s1.candidateCount + 1 }
          else
            { s1 with candidateGesture := matched, candidateCount := 1 }
        if s2.releaseCount ≥ RELEASE_FRAMES then
          if s2.candidateGesture ≠ none ∧ s2.candidateCount ≥ CONFIRM_FRAMES then
            { _setGesture s2.candidateGesture s2 with releaseCount := 0 }
          else if s2.candidateGesture = none then
            { _setGesture none s2 with releaseCount := 0, candidateCount := 0 }
          else s2
        else s2
    | none =>
      if matched = s.candidateGesture then
        let s1 := { s with candidateCount := s.candidateCount + 1 }
        if s1.candidateCount ≥ CONFIRM_FRAMES then
          { _setGesture matched s1 with releaseCount := 0 }
        else s1
      else
        { s with candidateGesture := matched, candidateCount := 1 }

/-- `n` consecutive `updateGesture` frames with the same input. -/
def feedFrames (inp : GestureInput) : Nat → GestureState → GestureState
  | 0, s => s
  | n + 1, s => feedFrames inp n (updateGesture inp s)

/-! ### Concrete scenario data -/

/-- A sequence of preview clicks fed to `_onPreviewClick`. -/
def submitClicks (s : CalibState) (clicks : List (ℚ × ℚ)) : CalibState :=
  clicks.foldl (fun st c => _onPreviewClick st c.1 c.2) s

/-- The synthetic calibration quad equal to the unit-square corners. -/
def unitQuad : List Pt := [⟨0, 0⟩, ⟨1, 0⟩, ⟨1, 1⟩, ⟨0, 1⟩]

/-- The identity homography matrix (row-major). -/
def identityH : List ℚ := [1, 0, 0, 0, 1, 0, 0, 0, 1]

/-- Four collinear calibration points (on the left edge `x = 0`). -/
def collinearQuad : List Pt := [⟨0, 0⟩, ⟨0, 1/4⟩, ⟨0, 1/2⟩, ⟨0, 1⟩]

/-- Preview clicks whose un-mirrored video points are `unitQuad`. -/
def unitClicks : List (ℚ × ℚ) := [(1, 0), (0, 0), (0, 1), (1, 1)]

/-- Preview clicks whose un-mirrored video points are `collinearQuad`. -/
def collinearClicks : List (ℚ × ℚ) := [(1, 0), (1, 1/4), (1, 1/2), (1, 1)]

/-- A landmark frame whose index-finger tip (landmark 8) is `(tx, ty)`. -/
def tipFrame (tx ty : ℚ) : List Pt :=
  List.replicate 8 ⟨0, 0⟩ ++ [⟨tx, ty⟩] ++ List.replicate 12 ⟨0, 0⟩

/-- A `HandState` calibrated with the unit-square quad (identity homography),
cursor overlay present, filters and predictor in their initial states. -/
def calibratedHandState : HandState :=
  { calib := { calibPoints := [], calibQuad := some unitQuad,
               homographyMat := some identityH, calibMode := false },
    filterX := oneEuroReset, filterY := oneEuroReset, pred := initPredState,
    lastLandmarks := none, cursorEl := true, cursorNorm := (1/2, 1/2),
    cursorActive := false, prevRaw := (1/2, 1/2) }

/-! #### Intermediate matrices of the two concrete Gaussian eliminations

`AU`/`MU0..MU7` are the DLT matrix, augmented system and forward-elimination
intermediates for `unitQuad`; `AC`/`MC0` the same for `collinearQuad` (whose
elimination dies at column 0: every pivot candidate there is exactly 0). -/

def AU : List (List ℚ) :=
 [[0, 0, -1, 0, 0, 0, 0, 0, 0],
  [0, 0, 0, 0, 0, -1, 0, 0, 0],
  [-1, 0, -1, 0, 0, 0, 1, 0, 1],
  [0, 0, 0, -1, 0, -1, 0, 0, 0],
  [-1, -1, -1, 0, 0, 0, 1, 1, 1],
  [0, 0, 0, -1, -1, -1, 1, 1, 1],
  [0, -1, -1, 0, 0, 0, 0, 0, 0],
  [0, 0, 0, 0, -1, -1, 0, 1, 1]]

def MU0 : List (List ℚ) :=
 [[0, 0, -1, 0, 0, 0, 0, 0, 0],
  [0, 0, 0, 0, 0, -1, 0, 0, 0],
  [-1, 0, -1, 0, 0, 0, 1, 0, -1],
  [0, 0, 0, -1, 0, -1, 0, 0, 0],
  [-1, -1, -1, 0, 0, 0, 1, 1, -1],
  [0, 0, 0, -1, -1, -1, 1, 1, -1],
  [0, -1, -1, 0, 0, 0, 0, 0, 0],
  [0, 0, 0, 0, -1, -1, 0, 1, -1]]

def MU1 : List (List ℚ) :=
 [[-1, 0, -1, 0, 0, 0, 1, 0, -1],
  [0, 0, 0, 0, 0, -1, 0, 0, 0],
  [0, 0, -1, 0, 0, 0, 0, 0, 0],
  [0, 0, 0, -1, 0, -1, 0, 0, 0],
  [0, -1, 0, 0, 0, 0, 0, 1, 0],
  [0, 0, 0, -1, -1, -1, 1, 1, -1],
  [0, -1, -1, 0, 0, 0, 0, 0, 0],
  [0, 0, 0, 0, -1, -1, 0, 1, -1]]

def MU2 : List (List ℚ) :=
 [[-1, 0, -1, 0, 0, 0, 1, 0, -1],
  [0, -1, 0, 0, 0, 0, 0, 1, 0],
  [0, 0, -1, 0, 0, 0, 0, 0, 0],
  [0, 0, 0, -1, 0, -1, 0, 0, 0],
  [0, 0, 0, 0, 0, -1, 0, 0, 0],
  [0, 0, 0, -1, -1, -1, 1, 1, -1],
  [0, 0, -1, 0, 0, 0, 0, -1, 0],
  [0, 0, 0, 0, -1, -1, 0, 1, -1]]

def MU3 : List (List ℚ) :=
 [[-1, 0, -1, 0, 0, 0, 1, 0, -1],
  [0, -1, 0, 0, 0, 0, 0, 1, 0],
  [0, 0, -1, 0, 0, 0, 0, 0, 0],
  [0, 0, 0, -1, 0, -1, 0, 0, 0],
  [0, 0, 0, 0, 0, -1, 0, 0, 0],
  [0, 0, 0, -1, -1, -1, 1, 1, -1],
  [0, 0, 0, 0, 0, 0, 0, -1, 0],
  [0, 0, 0, 0, -1, -1, 0, 1, -1]]

def MU4 : List (List ℚ) :=
 [[-1, 0, -1, 0, 0, 0, 1, 0, -1],
  [0, -1, 0, 0, 0, 0, 0, 1, 0],
  [0, 0, -1, 0, 0, 0, 0, 0, 0],
  [0, 0, 0, -1, 0, -1, 0, 0, 0],
  [0, 0, 0, 0, 0, -1, 0, 0, 0],
  [0, 0, 0, 0, -1, 0, 1, 1, -1],
  [0, 0, 0, 0, 0, 0, 0, -1, 0],
  [0, 0, 0, 0, -1, -1, 0, 1, -1]]

def MU5 : List (List ℚ) :=
 [[-1, 0, -1, 0, 0, 0, 1, 0, -1],
  [0, -1, 0, 0, 0, 0, 0, 1, 0],
  [0, 0, -1, 0, 0, 0, 0, 0, 0],
  [0, 0, 0, -1, 0, -1, 0, 0, 0],
  [0, 0, 0, 0, -1, 0, 1, 1, -1],
  [0, 0, 0, 0, 0, -1, 0, 0, 0],
  [0, 0, 0, 0, 0, 0, 0, -1, 0],
  [0, 0, 0, 0, 0, -1, -1, 0, 0]]

def MU6 : List (List ℚ) :=
 [[-1, 0, -1, 0, 0, 0, 1, 0, -1],
  [0, -1, 0, 0, 0, 0, 0, 1, 0],
  [0, 0, -1, 0, 0, 0, 0, 0, 0],
  [0, 0, 0, -1, 0, -1, 0, 0, 0],
  [0, 0, 0, 0, -1, 0, 1, 1, -1],
  [0, 0, 0, 0, 0, -1, 0, 0, 0],
  [0, 0, 0, 0, 0, 0, 0, -1, 0],
  [0, 0, 0, 0, 0, 0, -1, 0, 0]]

def MU7 : List (List ℚ) :=
 [[-1, 0, -1, 0, 0, 0, 1, 0, -1],
  [0, -1, 0, 0, 0, 0, 0, 1, 0],
  [0, 0, -1, 0, 0, 0, 0, 0, 0],
  [0, 0, 0, -1, 0, -1, 0, 0, 0],
  [0, 0, 0, 0, -1, 0, 1, 1, -1],
  [0, 0, 0, 0, 0, -1, 0, 0, 0],
  [0, 0, 0, 0, 0, 0, -1, 0, 0],
  [0, 0, 0, 0, 0, 0, 0, -1, 0]]

def AC : List (List ℚ) :=
 [[0, 0, -1, 0, 0, 0, 0, 0, 0],
  [0, 0, 0, 0, 0, -1, 0, 0, 0],
  [0, -1/4, -1, 0, 0, 0, 0, 1/4, 1],
  [0, 0, 0, 0, -1/4, -1, 0, 0, 0],
  [0, -1/2, -1, 0, 0, 0, 0, 1/2, 1],
  [0, 0, 0, 0, -1/2, -1, 0, 1/2, 1],
  [0, -1, -1, 0, 0, 0, 0, 0, 0],
  [0, 0, 0, 0, -1, -1, 0, 1, 1]]

def MC0 : List (List ℚ) :=
 [[0, 0, -1, 0, 0, 0, 0, 0, 0],
  [0, 0, 0, 0, 0, -1, 0, 0, 0],
  [0, -1/4, -1, 0, 0, 0, 0, 1/4, -1],
  [0, 0, 0, 0, -1/4, -1, 0, 0, 0],
  [0, -1/2, -1, 0, 0, 0, 0, 1/2, -1],
  [0, 0, 0, 0, -1/2, -1, 0, 1/2, -1],
  [0, -1, -1, 0, 0, 0, 0, 0, 0],
  [0, 0, 0, 0, -1, -1, 0, 1, -1]]

/-! ## Theorems -/

/-- Glue: evaluate `_gaussElim` given the augmented matrix and a successful
forward elimination. -/
theorem gaussElim_eq_some (A : List (List ℚ)) (b : List ℚ) (n : Nat)
    (M M2 : List (List ℚ)) (hn : b.length = n) (hM : augment A b = M)
    (hF : forwardElim M n = some M2) :
    _gaussElim A b = some (backSub M2 n) := by
  simp [_gaussElim, hn, hM, hF]

/-- Glue: `_gaussElim` fails when forward elimination fails. -/
theorem gaussElim_eq_none (A : List (List ℚ)) (b : List ℚ) (n : Nat)
    (M : List (List ℚ)) (hn : b.length = n) (hM : augment A b = M)
    (hF : forwardElim M n = none) :
    _gaussElim A b = none := by
  simp [_gaussElim, hn, hM, hF]

/-- Glue: evaluate `_computeHomography` from its DLT matrix and solver
result. -/
theorem computeHomography_eq_some (quad : List Pt) (A : List (List ℚ))
    (h8 : List ℚ) (hA : buildDLT quad = A)
    (hG : _gaussElim (A.map (fun row => row.take 8))
            (A.map (fun row => -(row.getD 8 0))) = some h8) :
    _computeHomography quad = some (h8 ++ [1]) := by
  unfold _computeHomography
  rw [hA]
  simp only [hG]

/-- Glue: `_computeHomography` returns `null` when the solve fails. -/
theorem computeHomography_eq_none (quad : List Pt) (A : List (List ℚ))
    (hA : buildDLT quad = A)
    (hG : _gaussElim (A.map (fun row => row.take 8))
            (A.map (fun row => -(row.getD 8 0))) = none) :
    _computeHomography quad = none := by
  unfold _computeHomography
  rw [hA]
  simp only [hG]

theorem buildDLT_unit : buildDLT unitQuad = AU := by
  norm_num [buildDLT, CORNER_TARGETS, unitQuad, AU, List.range'_succ,
    List.getD, List.get?]

theorem augment_unit :
    augment (AU.map (fun row => row.take 8))
      (AU.map (fun row => -(row.getD 8 0))) = MU0 := by
  norm_num [augment, AU, MU0, List.getD, List.get?]

theorem blen_unit : (AU.map (fun row => -(row.getD 8 0))).length = 8 := by
  simp [AU]

set_option maxHeartbeats 1000000 in
theorem stepU0 : elimCol MU0 0 8 = some MU1 := by
  norm_num [elimCol, swapRows, pivotSearch, mget, pivotEps, MU0, MU1,
    List.range'_succ, List.getD, List.get?]

set_option maxHeartbeats 1000000 in
theorem stepU1 : elimCol MU1 1 8 = some MU2 := by
  norm_num [elimCol, swapRows, pivotSearch, mget, pivotEps, MU1, MU2,
    List.range'_succ, List.getD, List.get?]

set_option maxHeartbeats 1000000 in
theorem stepU2 : elimCol MU2 2 8 = some MU3 := by
  norm_num [elimCol, swapRows, pivotSearch, mget, pivotEps, MU2, MU3,
    List.range'_succ, List.getD, List.get?]

set_option maxHeartbeats 1000000 in
theorem stepU3 : elimCol MU3 3 8 = some MU4 := by
  norm_num [elimCol, swapRows, pivotSearch, mget, pivotEps, MU3, MU4,
    List.range'_succ, List.getD, List.get?]

set_option maxHeartbeats 1000000 in
theorem stepU4 : elimCol MU4 4 8 = some MU5 := by
  norm_num [elimCol, swapRows, pivotSearch, mget, pivotEps, MU4, MU5,
    List.range'_succ, List.getD, List.get?]

set_option maxHeartbeats 1000000 in
theorem stepU5 : elimCol MU5 5 8 = some MU6 := by
  norm_num [elimCol, swapRows, pivotSearch, mget, pivotEps, MU5, MU6,
    List.range'_succ, List.getD, List.get?]

set_option maxHeartbeats 1000000 in
theorem stepU6 : elimCol MU6 6 8 = some MU7 := by
  norm_num [elimCol, swapRows, pivotSearch, mget, pivotEps, MU6, MU7,
    List.range'_succ, List.getD, List.get?]

set_option maxHeartbeats 1000000 in
theorem stepU7 : elimCol MU7 7 8 = some MU7 := by
  norm_num [elimCol, swapRows, pivotSearch, mget, pivotEps, MU7,
    List.range'_succ, List.getD, List.get?]

/-- Glue: one forward-elimination column step. -/
theorem forwardElimCols_cons_some (n col : Nat) (rest : List Nat)
    (M M2 : List (List ℚ)) (h : elimCol M col n = some M2) :
    forwardElimCols n (col :: rest) M = forwardElimCols n rest M2 := by
  rw [forwardElimCols, h]
  rfl

/-- Glue: forward elimination dies on a failing column. -/
theorem forwardElimCols_cons_none (n col : Nat) (rest : List Nat)
    (M : List (List ℚ)) (h : elimCol M col n = none) :
    forwardElimCols n (col :: rest) M = none := by
  rw [forwardElimCols, h]
  rfl

theorem fwdU : forwardElim MU0 8 = some MU7 := by
  rw [forwardElim]
  rw [show List.range' 0 8 = [0, 1, 2, 3, 4, 5, 6, 7] from rfl]
  rw [forwardElimCols_cons_some 8 0 _ _ _ stepU0]
  rw [forwardElimCols_cons_some 8 1 _ _ _ stepU1]
  rw [forwardElimCols_cons_some 8 2 _ _ _ stepU2]
  rw [forwardElimCols_cons_some 8 3 _ _ _ stepU3]
  rw [forwardElimCols_cons_some 8 4 _ _ _ stepU4]
  rw [forwardElimCols_cons_some 8 5 _ _ _ stepU5]
  rw [forwardElimCols_cons_some 8 6 _ _ _ stepU6]
  rw [forwardElimCols_cons_some 8 7 _ _ _ stepU7]
  rfl

set_option maxHeartbeats 2000000 in
theorem bsU : backSub MU7 8 = [1, 0, 0, 0, 1, 0, 0, 0] := by
  norm_num [backSub, backSubAux, mget, MU7, List.range'_succ,
    List.getD, List.get?]

/-- `_computeHomography` on the unit-square quad yields the identity
matrix exactly. -/
theorem computeHomography_unit : _computeHomography unitQuad = some identityH := by
  have hG := gaussElim_eq_some _ _ 8 MU0 MU7 blen_unit augment_unit fwdU
  rw [bsU] at hG
  have h := computeHomography_eq_some unitQuad AU _ buildDLT_unit hG
  rw [h]
  rfl

theorem buildDLT_collinear : buildDLT collinearQuad = AC := by
  norm_num [buildDLT, CORNER_TARGETS, collinearQuad, AC, List.range'_succ,
    List.getD, List.get?]

theorem augment_collinear :
    augment (AC.map (fun row => row.take 8))
      (AC.map (fun row => -(row.getD 8 0))) = MC0 := by
  norm_num [augment, AC, MC0, List.getD, List.get?]

theorem blen_collinear : (AC.map (fun row => -(row.getD 8 0))).length = 8 := by
  simp [AC]

set_option maxHeartbeats 1000000 in
theorem stepC0 : elimCol MC0 0 8 = none := by
  norm_num [elimCol, swapRows, pivotSearch, mget, pivotEps, MC0,
    List.range'_succ, List.getD, List.get?]

theorem fwdC : forwardElim MC0 8 = none := by
  rw [forwardElim]
  rw [show List.range' 0 8 = [0, 1, 2, 3, 4, 5, 6, 7] from rfl]
  rw [forwardElimCols_cons_none 8 0 _ _ stepC0]

/-- `_computeHomography` on four collinear points is degenerate: the solve
hits an exactly-zero pivot in column 0 and returns `null`. -/
theorem computeHomography_collinear : _computeHomography collinearQuad = none := by
  have hG := gaussElim_eq_none _ _ 8 MC0 blen_collinear augment_collinear fwdC
  exact computeHomography_eq_none collinearQuad AC buildDLT_collinear hG

/-- Submitting the four `collinearClicks` from a cleared collecting state
auto-confirms a calibration whose quad is `collinearQuad`. -/
theorem submit_collinear_from_init :
    submitClicks (startCalibration initCalibState) collinearClicks
      = ⟨[], some collinearQuad, _computeHomography collinearQuad, false⟩ := by
  norm_num [submitClicks, collinearClicks, _onPreviewClick, startCalibration,
    initCalibState, _confirmCalibration, collinearQuad]

/-- Submitting the four `unitClicks` from a cleared collecting state
auto-confirms a calibration whose quad is `unitQuad`. -/
theorem submit_unit_from_init :
    submitClicks (startCalibration initCalibState) unitClicks
      = ⟨[], some unitQuad, _computeHomography unitQuad, false⟩ := by
  norm_num [submitClicks, unitClicks, _onPreviewClick, startCalibration,
    initCalibState, _confirmCalibration, unitQuad]

/-- Recalibrating with `collinearClicks` from the good unit-quad calibration
overwrites it wholesale. -/
theorem submit_collinear_from_good :
    submitClicks (startCalibration
        (⟨[], some unitQuad, _computeHomography unitQuad, false⟩ : CalibState))
        collinearClicks
      = ⟨[], some collinearQuad, _computeHomography collinearQuad, false⟩ := by
  norm_num [submitClicks, collinearClicks, _onPreviewClick, startCalibration,
    _confirmCalibration, collinearQuad]

/-- C1 counterexample: submitting 4 collinear points is NOT surfaced as
"calibration invalid".  The degenerate solve does return no matrix
(`homographyMat` ends `none`), but `_confirmCalibration` installs the
degenerate quad unconditionally: starting uncalibrated, `isCalibrated()`
flips from `false` to `true`; and starting from a good unit-square
calibration, the prior quad and matrix are overwritten (the matrix by
`none`), so the prior calibration state does not remain in effect. -/
theorem C1_counterexample_degenerate_calibration :
    _computeHomography collinearQuad = none ∧
    isCalibrated (startCalibration initCalibState) = false ∧
    isCalibrated (submitClicks (startCalibration initCalibState) collinearClicks)
      = true ∧
    (submitClicks (startCalibration initCalibState) collinearClicks).calibQuad
      = some collinearQuad ∧
    (submitClicks (startCalibration initCalibState) unitClicks).homographyMat
      = some identityH ∧
    (submitClicks (startCalibration
        (⟨[], some unitQuad, _computeHomography unitQuad, false⟩ : CalibState))
        collinearClicks).calibQuad = some collinearQuad ∧
    (submitClicks (startCalibration
        (⟨[], some unitQuad, _computeHomography unitQuad, false⟩ : CalibState))
        collinearClicks).homographyMat = none := by
  refine ⟨computeHomography_collinear, ?_, ?_, ?_, ?_, ?_, ?_⟩
  · simp [isCalibrated, startCalibration, initCalibState]
  · rw [submit_collinear_from_init]
    simp [isCalibrated]
  · rw [submit_collinear_from_init]
  · rw [submit_unit_from_init]
    simp [computeHomography_unit]
  · rw [submit_collinear_from_good]
  · rw [submit_collinear_from_good]
    simp [computeHomography_collinear]

/-- C1 amended: on a degenerate calibration attempt the solve itself fails
cleanly — `_computeHomography` returns `none` (no exception: it is a total
function) and no matrix is installed (`homographyMat` becomes `none`,
clearing any prior matrix) — but the calibrator still installs the degenerate
quad as `calibQuad`, so `isCalibrated()` returns `true` afterwards and the
prior calibration state is overwritten; cursor mapping falls back to the
full-frame path because `homographyMat` is `none`. -/
theorem C1_amended_degenerate_calibration (s : CalibState)
    (h : _computeHomography s.calibPoints = none) :
    (_confirmCalibration s).homographyMat = none ∧
    (_confirmCalibration s).calibQuad = some s.calibPoints ∧
    isCalibrated (_confirmCalibration s) = true := by
  simp [_confirmCalibration, isCalibrated, h]

/-- Witness for the amended C1 at the collinear quad. -/
theorem C1_amended_degenerate_calibration_witness :
    (_confirmCalibration ⟨collinearQuad, none, none, true⟩).homographyMat = none ∧
    (_confirmCalibration ⟨collinearQuad, none, none, true⟩).calibQuad
      = some collinearQuad ∧
    isCalibrated (_confirmCalibration ⟨collinearQuad, none, none, true⟩) = true :=
  C1_amended_degenerate_calibration ⟨collinearQuad, none, none, true⟩
    computeHomography_collinear

/-- C2: for the calibration quad equal to the unit-square corners, the
homography solved by `_computeHomography` is exactly the identity matrix, and
the §4.4.2 homogeneous formula (before mirroring/clamping) maps each of the
four corners to itself and the centre `(0.5, 0.5)` to `(0.5, 0.5)`. -/
theorem C2_unit_square_roundtrip :
    _computeHomography unitQuad = some identityH ∧
    homographyRaw identityH 0 0 = (0, 0) ∧
    homographyRaw identityH 1 0 = (1, 0) ∧
    homographyRaw identityH 1 1 = (1, 1) ∧
    homographyRaw identityH 0 1 = (0, 1) ∧
    homographyRaw identityH (1/2) (1/2) = (1/2, 1/2) := by
  refine ⟨computeHomography_unit, ?_, ?_, ?_, ?_, ?_⟩ <;>
    norm_num [homographyRaw, identityH, List.getD, List.get?, Prod.ext_iff]

/-- C3: through a confirmed homography, a point is reported inside exactly
when both raw transformed coordinates lie in `[-0.04, 1.04]`; the reported X
is the mirror `1 - nx_raw` clamped to `[0,1]` and Y is `ny_raw` clamped;
concretely, a raw `nx` of 1.03 gives inside (and `cursorActive`) true while a
raw `nx` of 1.05 gives false. -/
theorem C3_inside_iff_margin_mirror_clamp :
    (∀ (h : List ℚ) (vx vy : ℚ),
      ((applyHomography (some h) vx vy).inside = true ↔
        (-(4/100) ≤ (homographyRaw h vx vy).1 ∧ (homographyRaw h vx vy).1 ≤ 104/100 ∧
         -(4/100) ≤ (homographyRaw h vx vy).2 ∧ (homographyRaw h vx vy).2 ≤ 104/100)) ∧
      (applyHomography (some h) vx vy).nx = clamp01 (1 - (homographyRaw h vx vy).1) ∧
      (applyHomography (some h) vx vy).ny = clamp01 ((homographyRaw h vx vy).2)) ∧
    (applyHomography (some identityH) (103/100) (1/2)).inside = true ∧
    (applyHomography (some identityH) (105/100) (1/2)).inside = false ∧
    (onHandResults calibratedHandState (some (tipFrame (103/100) (1/2))) 0).cursorActive
      = true ∧
    (onHandResults calibratedHandState (some (tipFrame (105/100) (1/2))) 0).cursorActive
      = false := by
  refine ⟨?_, ?_, ?_, ?_, ?_⟩
  · intro h vx vy
    refine ⟨?_, ?_, ?_⟩
    · simp [applyHomography, insideMargin]
      norm_num
      tauto
    · simp [applyHomography]
    · simp [applyHomography]
  · norm_num [applyHomography, homographyRaw, identityH, insideMargin, List.getD, List.get?]
  · norm_num [applyHomography, homographyRaw, identityH, insideMargin, List.getD, List.get?]
  · norm_num [onHandResults, calibratedHandState, tipFrame, unitQuad, identityH,
      applyHomography, homographyRaw, insideMargin, clamp01, oneEuroFilter, oneEuroReset,
      updatePrediction, initPredState, updateCursor, List.getD, List.get?, List.replicate]
  · norm_num [onHandResults, calibratedHandState, tipFrame, unitQuad, identityH,
      applyHomography, homographyRaw, insideMargin, clamp01, oneEuroFilter, oneEuroReset,
      updatePrediction, initPredState, updateCursor, List.getD, List.get?, List.replicate]

/-- C4: a detection callback with no landmarks resets both one-euro filters
and the velocity predictor unconditionally (their components of the resulting
state are exactly the reset states), clears the stored landmarks, and — with
the cursor overlay present — sets `cursorActive` to false.  The transition is
a total function: tracking loss is ordinary state, not an error. -/
theorem C4_tracking_loss_resets (st : HandState) (now : ℚ)
    (h : st.cursorEl = true) :
    (onHandResults st none now).filterX = oneEuroReset ∧
    (onHandResults st none now).filterY = oneEuroReset ∧
    (onHandResults st none now).pred = resetPrediction st.pred ∧
    (onHandResults st none now).pred.predVelX = 0 ∧
    (onHandResults st none now).pred.predVelY = 0 ∧
    (onHandResults st none now).pred.predActive = false ∧
    (onHandResults st none now).pred.predBaseT = 0 ∧
    (onHandResults st none now).lastLandmarks = none ∧
    (onHandResults st none now).cursorActive = false := by
  simp [onHandResults, updateCursor, resetPrediction, h]

/-- Witness for C4 at the concrete calibrated state. -/
theorem C4_tracking_loss_resets_witness :
    (onHandResults calibratedHandState none 0).filterX = oneEuroReset ∧
    (onHandResults calibratedHandState none 0).filterY = oneEuroReset ∧
    (onHandResults calibratedHandState none 0).pred
      = resetPrediction calibratedHandState.pred ∧
    (onHandResults calibratedHandState none 0).pred.predVelX = 0 ∧
    (onHandResults calibratedHandState none 0).pred.predVelY = 0 ∧
    (onHandResults calibratedHandState none 0).pred.predActive = false ∧
    (onHandResults calibratedHandState none 0).pred.predBaseT = 0 ∧
    (onHandResults calibratedHandState none 0).lastLandmarks = none ∧
    (onHandResults calibratedHandState none 0).cursorActive = false :=
  C4_tracking_loss_resets calibratedHandState 0 rfl

/-- A filter step from a settled state `⟨some c, 0, some t0⟩` fed `c` again
returns `c` and re-settles: the raw derivative is 0, so the smoothed
derivative stays 0, and the output is a convex combination of `c` with `c`. -/
theorem oneEuroFilter_const (p : OneEuroParams) (c t0 t : ℚ) :
    oneEuroFilter p ⟨some c, 0, some t0⟩ c t = (⟨some c, 0, some t⟩, c) := by
  simp only [oneEuroFilter]
  simp [Prod.ext_iff, OneEuroState.mk.injEq]
  ring

/-- Constant input from a settled state keeps producing the constant. -/
theorem runFilter_const_from (p : OneEuroParams) (c : ℚ) (ts : List ℚ) :
    ∀ t0, runFilter p ⟨some c, 0, some t0⟩ (ts.map (fun t => (c, t)))
      = ts.map (fun _ => c) := by
  induction ts with
  | nil => intro t0; simp [runFilter]
  | cons t rest ih =>
    intro t0
    simp only [List.map_cons, runFilter, oneEuroFilter_const]
    simp [ih t]

/-- C5: feeding the one-euro filter a constant `c` at strictly increasing
timestamps, starting from the reset state, returns exactly `c` on every call
— in particular the first call after `reset()` returns exactly `c`, and the
output stays at the constant. -/
theorem C5_constant_input_fixed_output (p : OneEuroParams) (c : ℚ)
    (ts : List ℚ) (hts : ts.Chain' (· < ·)) :
    runFilter p oneEuroReset (ts.map (fun t => (c, t))) = ts.map (fun _ => c) := by
  cases ts with
  | nil => simp [runFilter]
  | cons t rest =>
    simp only [List.map_cons, runFilter, oneEuroReset, oneEuroFilter]
    simp [runFilter_const_from p c rest t]

/-- Witness for C5 with the source's filter parameters. -/
theorem C5_constant_input_fixed_output_witness :
    runFilter cursorFilterParams oneEuroReset
        ([0, 1/10, 1/5].map (fun t => ((1:ℚ)/3, t)))
      = [(0:ℚ), 1/10, 1/5].map (fun _ => (1:ℚ)/3) :=
  C5_constant_input_fixed_output cursorFilterParams (1/3) [0, 1/10, 1/5] (by norm_num)

theorem clamp01_le_one (v : ℚ) : clamp01 v ≤ 1 := by
  simp [clamp01]

theorem le_clamp01 (x v : ℚ) (h1 : x ≤ 1) (hv : x ≤ v) : x ≤ clamp01 v := by
  simp only [clamp01]
  rcases le_total v 1 with h | h
  · rw [min_eq_right h]
    exact le_max_of_le_right hv
  · rw [min_eq_left h]
    exact le_max_of_le_right h1

/-- C6: starting from a reset predictor, two `updatePrediction` calls with a
positive x-displacement (more than 5 ms apart, base timestamp positive)
followed by `getPredictedPosition` at any `now ≥ t2` return an x value
between the last position `x1` and 1: the motion is continued monotonically
and clamped to `[0,1]`. -/
theorem C6_positive_velocity_extrapolation (s : PredState)
    (x0 y0 x1 y1 t1 t2 now : ℚ)
    (ht1 : 0 < t1) (hdt : 5 < t2 - t1) (hx : x0 < x1)
    (hx0 : 0 ≤ x1) (hx1 : x1 ≤ 1) (hnow : t2 ≤ now) :
    x1 ≤ (getPredictedPosition
      (updatePrediction (updatePrediction (resetPrediction s) x0 y0 t1) x1 y1 t2)
      now).1 ∧
    (getPredictedPosition
      (updatePrediction (updatePrediction (resetPrediction s) x0 y0 t1) x1 y1 t2)
      now).1 ≤ 1 := by
  have h1 : updatePrediction (resetPrediction s) x0 y0 t1
      = ⟨0, 0, x0, y0, t1, true⟩ := by
    simp [updatePrediction, resetPrediction]
  rw [h1]
  have hdt2 : (5:ℚ)/1000 < (t2 - t1) / 1000 := by linarith
  have h2 : updatePrediction ⟨0, 0, x0, y0, t1, true⟩ x1 y1 t2
      = ⟨max (-MAX_VEL) (min MAX_VEL ((x1 - x0) / ((t2 - t1) / 1000))) * VEL_ALPHA,
         max (-MAX_VEL) (min MAX_VEL ((y1 - y0) / ((t2 - t1) / 1000))) * VEL_ALPHA,
         x1, y1, t2, true⟩ := by
    simp [updatePrediction, ht1, hdt2]
  rw [h2]
  set vx := max (-MAX_VEL) (min MAX_VEL ((x1 - x0) / ((t2 - t1) / 1000))) with hvx
  have hdtpos : (0:ℚ) < (t2 - t1) / 1000 := by linarith
  have hraw : 0 < (x1 - x0) / ((t2 - t1) / 1000) := div_pos (by linarith) hdtpos
  have hvpos : 0 < vx := by
    rw [hvx]
    have hmin : (0:ℚ) < min MAX_VEL ((x1 - x0) / ((t2 - t1) / 1000)) :=
      lt_min (by norm_num [MAX_VEL]) hraw
    exact lt_of_lt_of_le hmin (le_max_right _ _)
  simp only [getPredictedPosition, Bool.not_true, Bool.false_eq_true, if_false]
  have hdtp : (0:ℚ) ≤ min ((now - t2) / 1000) (15/100) := by
    apply le_min
    · exact div_nonneg (by linarith) (by norm_num)
    · norm_num
  constructor
  · apply le_clamp01 _ _ hx1
    have hnn : 0 ≤ vx * VEL_ALPHA * (min ((now - t2) / 1000) (15/100) + PREDICT_MS / 1000) := by
      apply mul_nonneg (mul_nonneg (le_of_lt hvpos) (by norm_num [VEL_ALPHA]))
      have hp : (0:ℚ) < PREDICT_MS / 1000 := by norm_num [PREDICT_MS]
      linarith
    linarith
  · exact clamp01_le_one _

/-- Witness for C6: x moves 0.2 → 0.3 between t = 1000 ms and 1100 ms,
prediction read 20 ms later. -/
theorem C6_positive_velocity_extrapolation_witness :
    (3:ℚ)/10 ≤ (getPredictedPosition
      (updatePrediction
        (updatePrediction (resetPrediction initPredState) (1/5) (1/2) 1000)
        (3/10) (1/2) 1100) 1120).1 ∧
    (getPredictedPosition
      (updatePrediction
        (updatePrediction (resetPrediction initPredState) (1/5) (1/2) 1000)
        (3/10) (1/2) 1100) 1120).1 ≤ 1 :=
  C6_positive_velocity_extrapolation initPredState (1/5) (1/2) (3/10) (1/2)
    1000 1100 1120 (by norm_num) (by norm_num) (by norm_num) (by norm_num)
    (by norm_num) (by norm_num)

/-- First matching frame from the cleared state: the candidate is recorded
with count 1, nothing confirmed. -/
theorem gstep_first (g : String) :
    updateGesture (.hand (some g)) ⟨none, none, 0, 0⟩ = ⟨none, some g, 1, 0⟩ := by
  simp [updateGesture]

/-- A matching frame below the confirm threshold only increments the count. -/
theorem gstep_accum (g : String) (c r : Nat) (hc : c + 1 < CONFIRM_FRAMES) :
    updateGesture (.hand (some g)) ⟨none, some g, c, r⟩ = ⟨none, some g, c + 1, r⟩ := by
  simp [updateGesture, Nat.not_le.2 hc]

/-- A matching frame reaching the confirm threshold confirms the gesture. -/
theorem gstep_confirm (g : String) (c r : Nat) (hc : CONFIRM_FRAMES ≤ c + 1) :
    updateGesture (.hand (some g)) ⟨none, some g, c, r⟩ = ⟨some g, some g, c + 1, 0⟩ := by
  simp [updateGesture, _setGesture, hc]

/-- A null landmark frame only forces `currentGesture` to none. -/
theorem gstep_noHand (s : GestureState) :
    updateGesture .noHand s = { s with currentGesture := none } := rfl

/-- C7: from the cleared hysteresis state, feeding the same matched label for
`CONFIRM_FRAMES = 4` consecutive frames confirms it exactly on the 4th frame:
`getCurrentGesture()` is none after frames 1–3 and the label after frame 4. -/
theorem C7_confirm_on_fourth_frame (g : String) :
    CONFIRM_FRAMES = 4 ∧
    getCurrentGesture (feedFrames (.hand (some g)) 1 clearGesture) = none ∧
    getCurrentGesture (feedFrames (.hand (some g)) 2 clearGesture) = none ∧
    getCurrentGesture (feedFrames (.hand (some g)) 3 clearGesture) = none ∧
    getCurrentGesture (feedFrames (.hand (some g)) 4 clearGesture) = some g := by
  refine ⟨rfl, ?_, ?_, ?_, ?_⟩ <;>
    simp [feedFrames, clearGesture, gstep_first, getCurrentGesture,
      gstep_accum g 1 0 (by norm_num [CONFIRM_FRAMES]),
      gstep_accum g 2 0 (by norm_num [CONFIRM_FRAMES]),
      gstep_confirm g 3 0 (by norm_num [CONFIRM_FRAMES])]

/-- C8: whatever the hysteresis state, a null landmark frame while a gesture
is confirmed makes `getCurrentGesture()` none on that very frame, with no
release-frame delay. -/
theorem C8_null_frame_forces_none (s : GestureState) (g : String)
    (h : getCurrentGesture s = some g) :
    getCurrentGesture (updateGesture .noHand s) = none := by
  simp [updateGesture, _setGesture, getCurrentGesture]

/-- Witness for C8 at a freshly confirmed state. -/
theorem C8_null_frame_forces_none_witness :
    getCurrentGesture
      (updateGesture .noHand ⟨some "draw", some "draw", 4, 0⟩) = none :=
  C8_null_frame_forces_none ⟨some "draw", some "draw", 4, 0⟩ "draw" rfl

/-- C9: a null landmark frame changes only `currentGesture` (candidate label,
candidate count and release count are retained), so a candidate with
`k < CONFIRM_FRAMES` accumulated matching frames before the loss is confirmed
after exactly `CONFIRM_FRAMES - k` further matching frames — and not
before. -/
theorem C9_noHand_preserves_candidate (g : String) (k : Nat)
    (hk : k < CONFIRM_FRAMES) :
    (∀ s : GestureState, updateGesture .noHand s = { s with currentGesture := none }) ∧
    getCurrentGesture (feedFrames (.hand (some g)) (CONFIRM_FRAMES - k)
      (updateGesture .noHand (feedFrames (.hand (some g)) k clearGesture))) = some g ∧
    (∀ m, m < CONFIRM_FRAMES - k →
      getCurrentGesture (feedFrames (.hand (some g)) m
        (updateGesture .noHand (feedFrames (.hand (some g)) k clearGesture))) = none) := by
  have hstep1 := gstep_accum g 1 0 (by norm_num [CONFIRM_FRAMES])
  have hstep2 := gstep_accum g 2 0 (by norm_num [CONFIRM_FRAMES])
  have hstep3 := gstep_confirm g 3 0 (by norm_num [CONFIRM_FRAMES])
  have hnh : ∀ (cg : Option String) (c r : Nat),
      updateGesture .noHand (⟨none, cg, c, r⟩ : GestureState) = ⟨none, cg, c, r⟩ :=
    fun _ _ _ => rfl
  refine ⟨fun s => gstep_noHand s, ?_, ?_⟩
  · have hk4 : k < 4 := hk
    interval_cases k <;>
      simp [feedFrames, clearGesture, hnh, gstep_first, hstep1, hstep2, hstep3,
        getCurrentGesture, CONFIRM_FRAMES]
  · intro m hm
    have hk4 : k < 4 := hk
    have hm4 : m < 4 - k := hm
    interval_cases k
    · have hmm : m < 4 := by omega
      interval_cases m <;>
        simp [feedFrames, clearGesture, hnh, gstep_first, hstep1, hstep2, hstep3,
          getCurrentGesture]
    · have hmm : m < 3 := by omega
      interval_cases m <;>
        simp [feedFrames, clearGesture, hnh, gstep_first, hstep1, hstep2, hstep3,
          getCurrentGesture, CONFIRM_FRAMES]
    · have hmm : m < 2 := by omega
      interval_cases m <;>
        simp [feedFrames, clearGesture, hnh, gstep_first, hstep1, hstep2, hstep3,
          getCurrentGesture, CONFIRM_FRAMES]
    · have hmm : m = 0 := by omega
      subst hmm
      simp [feedFrames, clearGesture, hnh, gstep_first, hstep1, hstep2, hstep3,
        getCurrentGesture, CONFIRM_FRAMES]

/-- Witness for C9 at `k = 2` frames accumulated before the loss. -/
theorem C9_noHand_preserves_candidate_witness :
    getCurrentGesture (feedFrames (.hand (some "draw")) (CONFIRM_FRAMES - 2)
      (updateGesture .noHand (feedFrames (.hand (some "draw")) 2 clearGesture)))
      = some "draw" :=
  (C9_noHand_preserves_candidate "draw" 2 (by norm_num [CONFIRM_FRAMES])).2.1

/-- One predictor API call keeps the smoothed velocity inside
`[-MAX_VEL, MAX_VEL]`: the raw velocity is clamped into that range before the
EMA blend, and the blend of two in-range values stays in range. -/
theorem predVel_inv_step (s : PredState) (op : PredOp)
    (hx : |s.predVelX| ≤ MAX_VEL) (hy : |s.predVelY| ≤ MAX_VEL) :
    |(applyPredOp s op).predVelX| ≤ MAX_VEL ∧
    |(applyPredOp s op).predVelY| ≤ MAX_VEL := by
  cases op with
  | predictTick now => exact ⟨hx, hy⟩
  | reset => simp [applyPredOp, resetPrediction, MAX_VEL]
  | update fx fy t =>
    simp only [applyPredOp, updatePrediction]
    split_ifs with h1 h2
    · set rx := (fx - s.predBaseX) / ((t - s.predBaseT) / 1000) with hrx
      set ry := (fy - s.predBaseY) / ((t - s.predBaseT) / 1000) with hry
      simp only [MAX_VEL, VEL_ALPHA] at *
      rw [abs_le] at hx hy ⊢
      rw [abs_le]
      have hcx1 : -8 ≤ max (-(8:ℚ)) (min 8 rx) := le_max_left _ _
      have hcx2 : max (-(8:ℚ)) (min 8 rx) ≤ 8 := max_le (by norm_num) (min_le_left _ _)
      have hcy1 : -8 ≤ max (-(8:ℚ)) (min 8 ry) := le_max_left _ _
      have hcy2 : max (-(8:ℚ)) (min 8 ry) ≤ 8 := max_le (by norm_num) (min_le_left _ _)
      constructor <;> constructor <;> nlinarith [hx.1, hx.2, hy.1, hy.2]
    · exact ⟨hx, hy⟩
    · exact ⟨hx, hy⟩

/-- C10: over every finite sequence of predictor calls from the initial
module state, the smoothed velocity components stay within
`[-MAX_VEL, MAX_VEL] = [-8, 8]`. -/
theorem C10_velocity_always_bounded (ops : List PredOp) :
    MAX_VEL = 8 ∧
    |(runPredOps ops).predVelX| ≤ MAX_VEL ∧
    |(runPredOps ops).predVelY| ≤ MAX_VEL := by
  refine ⟨rfl, ?_⟩
  suffices h : ∀ s : PredState, |s.predVelX| ≤ MAX_VEL → |s.predVelY| ≤ MAX_VEL →
      |(ops.foldl applyPredOp s).predVelX| ≤ MAX_VEL ∧
      |(ops.foldl applyPredOp s).predVelY| ≤ MAX_VEL by
    exact h initPredState (by simp [initPredState, MAX_VEL])
      (by simp [initPredState, MAX_VEL])
  induction ops with
  | nil => intro s h1 h2; exact ⟨h1, h2⟩
  | cons op rest ih =>
    intro s h1 h2
    have step := predVel_inv_step s op h1 h2
    simpa [List.foldl_cons] using ih (applyPredOp s op) step.1 step.2

end HandPipeline
